import Mathlib

/-!
Verification of the m3ter Terraform provider's core layer: the reflective
field mapper (`helpers.go` and its second copy in the unnamed provider file),
the generic CRUD orchestration functions, the HTTP client wrapper
(`client.go`), and the product data source / product import pagination loops.

The Go code is shallowly embedded: Terraform attribute values become an
inductive `Attr` (null / unknown / known, per scalar kind), the untyped
`map[string]any` REST payloads become association lists of `GoValue`s, Go
errors become an inductive `GoErr`, and the effectful orchestration
functions become pure functions that also return a trace of the externally
visible events they performed (HTTP calls, state writes, limiter waits).
-/

set_option maxRecDepth 4096

/-- A single Terraform diagnostic.  `isErr` is true for error severity
(`AddError`), false for warnings. -/
structure Diagnostic where
  isErr : Bool
  summary : String
  detail : String
deriving DecidableEq, Repr

/-- `diag.Diagnostics`: an ordered collection of diagnostics. -/
abbrev Diagnostics := List Diagnostic

/-- `Diagnostics.AddError`: appends an error diagnostic. -/
def addErrorDiag (d : Diagnostics) (summary detail : String) : Diagnostics :=
  d ++ [⟨true, summary, detail⟩]

/-- `Diagnostics.HasError`: whether any diagnostic has error severity. -/
def hasErrorDiag (d : Diagnostics) : Bool :=
  d.any (·.isErr)

/-- An untyped Go value as stored in the `map[string]any` REST payloads.
A Go `float64` is carried opaquely as its 64-bit pattern (`f64`); the code
under verification never computes with floats, it only moves them.
`nilSlice` is the nil `[]any` slice, distinct from the non-nil slice
`list xs` (they differ under `reflect.DeepEqual` and JSON-encode to `null`
versus `[]`). -/
inductive GoValue where
  | str : String → GoValue
  | i32 : Int → GoValue
  | i64 : Int → GoValue
  | f64 : Nat → GoValue
  | bool : Bool → GoValue
  | list : List GoValue → GoValue
  | nilSlice : GoValue

/-- A `map[string]any` REST payload, as an association list. -/
abbrev RestMap := List (String × GoValue)

/-- Map lookup (`v, ok := m.v[key]`). -/
def restGet (m : RestMap) (k : String) : Option GoValue :=
  match m with
  | [] => none
  | (k', v) :: rest => if k' = k then some v else restGet rest k

/-- Map store (`m.v[target] = x`): replaces the existing entry or appends. -/
def restSet (m : RestMap) (k : String) (v : GoValue) : RestMap :=
  match m with
  | [] => [(k, v)]
  | (k', v') :: rest => if k' = k then (k, v) :: rest else (k', v') :: restSet rest k v

/-- The three states of a Terraform attribute value of element type `α`. -/
inductive AttrState (α : Type) where
  | null : AttrState α
  | unknown : AttrState α
  | value : α → AttrState α
deriving DecidableEq, Repr

/-- The known value, or the Go zero value: `ValueString`, `ValueInt32`, ...
return the zero value of the underlying type on a null or unknown. -/
def AttrState.zeroOr {α : Type} (z : α) : AttrState α → α
  | .value a => a
  | _ => z

def AttrState.isUnknownB {α : Type} : AttrState α → Bool
  | .unknown => true
  | _ => false

def AttrState.isNullB {α : Type} : AttrState α → Bool
  | .null => true
  | _ => false

/-- A typed Terraform attribute value as seen by the mapper: one of the five
scalar wrapper types (`types.String`, `types.Int32`, `types.Int64`,
`types.Float64`, `types.Bool`), or a value of any other attribute type
(`other`, carrying only its `IsUnknown`/`IsNull` results), which implements
none of the five valuer interfaces. -/
inductive Attr where
  | str : AttrState String → Attr
  | i32 : AttrState Int → Attr
  | i64 : AttrState Int → Attr
  | f64 : AttrState Nat → Attr
  | bool : AttrState Bool → Attr
  | other : Bool → Bool → Attr
deriving DecidableEq, Repr

/-- `IsUnknown()` of the `unknowable` interface. -/
def Attr.isUnknown : Attr → Bool
  | .str s => s.isUnknownB
  | .i32 s => s.isUnknownB
  | .i64 s => s.isUnknownB
  | .f64 s => s.isUnknownB
  | .bool s => s.isUnknownB
  | .other u _ => u

/-- `IsNull()` of the `unknowable` interface. -/
def Attr.isNull : Attr → Bool
  | .str s => s.isNullB
  | .i32 s => s.isNullB
  | .i64 s => s.isNullB
  | .f64 s => s.isNullB
  | .bool s => s.isNullB
  | .other _ n => n

/-- The Go scalar obtained from the attribute's valuer interface
(`ValueString`/`ValueInt32`/`ValueInt64`/`ValueFloat64`/`ValueBool`), or
`none` when the value implements none of the five interfaces. -/
def Attr.scalarGo : Attr → Option GoValue
  | .str s => some (.str (s.zeroOr ""))
  | .i32 s => some (.i32 (s.zeroOr 0))
  | .i64 s => some (.i64 (s.zeroOr 0))
  | .f64 s => some (.f64 (s.zeroOr 0))
  | .bool s => some (.bool (s.zeroOr false))
  | .other _ _ => none

/-- The attribute's type (`target.Type(ctx)`), reduced to its scalar kind. -/
inductive AttrKind where
  | string | int32 | int64 | float64 | bool | other
deriving DecidableEq, Repr

def Attr.kind : Attr → AttrKind
  | .str _ => .string
  | .i32 _ => .int32
  | .i64 _ => .int64
  | .f64 _ => .float64
  | .bool _ => .bool
  | .other _ _ => .other

/-- A whole attribute value that is known to hold a scalar
(one of the five wrapper types, neither null nor unknown). -/
def Attr.isKnownScalarB : Attr → Bool
  | .str (.value _) => true
  | .i32 (.value _) => true
  | .i64 (.value _) => true
  | .f64 (.value _) => true
  | .bool (.value _) => true
  | _ => false

/-- `types.List` as seen by `listFrom`/`listTo`: null, unknown, or a list of
element values.  `Elements()` of a null or unknown list is empty. -/
abbrev ListAttr := AttrState (List Attr)

def listElements : ListAttr → List Attr
  | .value xs => xs
  | _ => []

/-- `mapper.from` of `src/internal/provider/helpers.go` (lines 72-91): skips
only unknown sources, then type-switches over the five valuer interfaces;
a source implementing none of them gets a "Cannot map field" error.
State is passed explicitly: `(m, d)` is the mapper's map and diagnostics. -/
def mapperFrom_helpers (m : RestMap) (d : Diagnostics) (source : Attr) (target : String) :
    RestMap × Diagnostics :=
  if source.isUnknown then (m, d)
  else
    match source with
    | .str s => (restSet m target (.str (s.zeroOr "")), d)
    | .i32 s => (restSet m target (.i32 (s.zeroOr 0)), d)
    | .i64 s => (restSet m target (.i64 (s.zeroOr 0)), d)
    | .f64 s => (restSet m target (.f64 (s.zeroOr 0)), d)
    | .bool s => (restSet m target (.bool (s.zeroOr false)), d)
    | .other _ _ => (m, addErrorDiag d ("Cannot map field " ++ target) "unknown type")

/-- `mapper.from` of the unnamed provider file `part_002` (lines 121-140):
identical to the helpers.go copy except that it also skips null sources. -/
def mapperFrom_part002 (m : RestMap) (d : Diagnostics) (source : Attr) (target : String) :
    RestMap × Diagnostics :=
  if source.isUnknown || source.isNull then (m, d)
  else
    match source with
    | .str s => (restSet m target (.str (s.zeroOr "")), d)
    | .i32 s => (restSet m target (.i32 (s.zeroOr 0)), d)
    | .i64 s => (restSet m target (.i64 (s.zeroOr 0)), d)
    | .f64 s => (restSet m target (.f64 (s.zeroOr 0)), d)
    | .bool s => (restSet m target (.bool (s.zeroOr false)), d)
    | .other _ _ => (m, addErrorDiag d ("Cannot map field " ++ target) "unknown type")

/-- One step of the element loop shared by both `listFrom` copies:
convert the element with `fn`, append its diagnostics, append the element. -/
def listFromStep (fn : Attr → GoValue × Diagnostics)
    (acc : List GoValue × Diagnostics) (e : Attr) : List GoValue × Diagnostics :=
  ((acc.1 ++ [(fn e).1], acc.2 ++ (fn e).2))

/-- `mapper.listFrom` of helpers.go (lines 93-105): `var v []any` stays the
nil slice when the element loop never runs, so an empty (or null) list is
stored as the nil slice. -/
def mapperListFrom_helpers (m : RestMap) (d : Diagnostics) (source : ListAttr)
    (target : String) (fn : Attr → GoValue × Diagnostics) : RestMap × Diagnostics :=
  if source.isUnknownB then (m, d)
  else
    let r := (listElements source).foldl (listFromStep fn) ([], d)
    (restSet m target (if r.1.isEmpty then .nilSlice else .list r.1), r.2)

/-- `mapper.listFrom` of `part_002` (lines 142-154): the slice is created
with `make([]any, 0, ...)`, so the stored slice is never nil. -/
def mapperListFrom_part002 (m : RestMap) (d : Diagnostics) (source : ListAttr)
    (target : String) (fn : Attr → GoValue × Diagnostics) : RestMap × Diagnostics :=
  if source.isUnknownB then (m, d)
  else
    let r := (listElements source).foldl (listFromStep fn) ([], d)
    (restSet m target (.list r.1), r.2)

/-- Modelled external collaborator: `tfsdk.ValueFrom` of the
terraform-plugin-framework, converting an untyped Go value into an attribute
value of the target type.  Faithful for a Go scalar converted to the wrapper
type of the same kind (the only conversions the repository performs);
narrowing `int64` data into an `Int32` target succeeds exactly when the
value is representable; conversions between floating point and integer
kinds and all other mismatches are modelled as conversion-error
diagnostics. -/
def tfsdkValueFrom (v : GoValue) (k : AttrKind) : Except Diagnostic Attr :=
  match k, v with
  | .string, .str s => .ok (.str (.value s))
  | .int32, .i32 n => .ok (.i32 (.value n))
  | .int32, .i64 n =>
      if -(2 ^ 31) ≤ n ∧ n < 2 ^ 31 then .ok (.i32 (.value n))
      else .error ⟨true, "Value Conversion Error", "value out of range"⟩
  | .int64, .i64 n => .ok (.i64 (.value n))
  | .int64, .i32 n => .ok (.i64 (.value n))
  | .float64, .f64 b => .ok (.f64 (.value b))
  | .bool, .bool b => .ok (.bool (.value b))
  | _, _ => .error ⟨true, "Value Conversion Error", "type mismatch"⟩

/-- `mapper.to`, identical in helpers.go (lines 50-54) and `part_002`
(lines 53-57): when the key is present, convert the stored value to the
target's type, replacing the target on success and appending the conversion
diagnostics on failure; when the key is absent, do nothing. -/
def mapperTo (m : RestMap) (d : Diagnostics) (key : String) (target : Attr) :
    Attr × Diagnostics :=
  match restGet m key with
  | none => (target, d)
  | some v =>
    match tfsdkValueFrom v target.kind with
    | .ok a => (a, d)
    | .error e => (target, d ++ [e])

/-- One step of the element loop of `listTo`. -/
def listToStep (fn : GoValue → Attr × Diagnostics)
    (acc : List Attr × Diagnostics) (e : GoValue) : List Attr × Diagnostics :=
  ((acc.1 ++ [(fn e).1], acc.2 ++ (fn e).2))

/-- `mapper.listTo`, identical in helpers.go (lines 56-70) and `part_002`
(lines 59-73): when the key holds an `[]any` (the type assertion also
accepts the nil slice), convert each element with `fn` and store the
resulting list; otherwise do nothing.  `types.ListValue` is modelled as
succeeding, which it does for elements of the declared element type. -/
def mapperListTo (m : RestMap) (d : Diagnostics) (key : String) (target : ListAttr)
    (fn : GoValue → Attr × Diagnostics) : ListAttr × Diagnostics :=
  match restGet m key with
  | none => (target, d)
  | some (.list xs) =>
    let r := xs.foldl (listToStep fn) ([], d)
    (.value r.1, r.2)
  | some .nilSlice => (.value [], d)
  | some _ => (target, d)

/-! ### Helper lemmas about the map and the element folds -/

theorem restGet_restSet_self (m : RestMap) (k : String) (v : GoValue) :
    restGet (restSet m k v) k = some v := by
  induction m with
  | nil => simp [restSet, restGet]
  | cons hd tl ih =>
    by_cases h : hd.1 = k
    · simp [restSet, restGet, h]
    · cases hd
      simp_all [restSet, restGet, h]

theorem listFromStep_foldl_fst (fn : Attr → GoValue × Diagnostics) (xs : List Attr)
    (init : List GoValue) (d : Diagnostics) :
    ((xs.foldl (listFromStep fn) (init, d)).1 =
      init ++ xs.map (fun e => (fn e).1)) := by
  induction xs generalizing init d with
  | nil => simp
  | cons hd tl ih => simp [listFromStep, ih]

/-! ### Claims about the mapper -/

/-- C4: for every attribute value that is not unknown (and, in the
`part_002` variant, also not null), `mapper.from` stores under the target
key exactly the Go scalar obtained from the value's valuer interface
(string, int32, int64, float64 or bool), and for a value of any other type
it adds a "Cannot map field" error diagnostic and leaves the map
unchanged. -/
theorem C4_mapper_from_scalars (a : Attr) (k : String) (m : RestMap) (d : Diagnostics)
    (hu : a.isUnknown = false) :
    ((∀ g, a.scalarGo = some g → mapperFrom_helpers m d a k = (restSet m k g, d)) ∧
     (a.scalarGo = none →
        mapperFrom_helpers m d a k =
          (m, addErrorDiag d ("Cannot map field " ++ k) "unknown type"))) ∧
    (a.isNull = false →
      (∀ g, a.scalarGo = some g → mapperFrom_part002 m d a k = (restSet m k g, d)) ∧
      (a.scalarGo = none →
        mapperFrom_part002 m d a k =
          (m, addErrorDiag d ("Cannot map field " ++ k) "unknown type"))) := by
  cases a <;>
    simp_all [mapperFrom_helpers, mapperFrom_part002, Attr.isUnknown, Attr.isNull,
      Attr.scalarGo]

/-- Witness for C4 at the concrete value `types.Int64Value(7)`. -/
theorem C4_witness :
    mapperFrom_helpers [] [] (.i64 (.value 7)) "version" = ([("version", .i64 7)], []) ∧
    mapperFrom_part002 [] [] (.i64 (.value 7)) "version" = ([("version", .i64 7)], []) := by
  have h := C4_mapper_from_scalars (.i64 (.value 7)) "version" [] [] rfl
  exact ⟨h.1.1 (.i64 7) rfl, (h.2 rfl).1 (.i64 7) rfl⟩

/-- C5: the mapper is consistent in the two directions: writing a known,
non-null scalar attribute into the map with `mapper.from` under key `k` and
reading that entry back with `mapper.to` on `k` into a fresh attribute of
the same type reproduces the original attribute value and adds no
diagnostic. -/
theorem C5_mapper_roundtrip (a fresh : Attr) (k : String) (m : RestMap) (d : Diagnostics)
    (hs : a.isKnownScalarB = true) (hk : fresh.kind = a.kind) :
    mapperTo (mapperFrom_part002 m d a k).1 (mapperFrom_part002 m d a k).2 k fresh =
      (a, d) := by
  cases a with
  | str s =>
    cases s <;> simp_all [mapperFrom_part002, mapperTo, Attr.isKnownScalarB,
      Attr.isUnknown, Attr.isNull, AttrState.isUnknownB, AttrState.isNullB,
      AttrState.zeroOr, restGet_restSet_self, hk, Attr.kind, tfsdkValueFrom]
  | i32 s =>
    cases s <;> simp_all [mapperFrom_part002, mapperTo, Attr.isKnownScalarB,
      Attr.isUnknown, Attr.isNull, AttrState.isUnknownB, AttrState.isNullB,
      AttrState.zeroOr, restGet_restSet_self, hk, Attr.kind, tfsdkValueFrom]
  | i64 s =>
    cases s <;> simp_all [mapperFrom_part002, mapperTo, Attr.isKnownScalarB,
      Attr.isUnknown, Attr.isNull, AttrState.isUnknownB, AttrState.isNullB,
      AttrState.zeroOr, restGet_restSet_self, hk, Attr.kind, tfsdkValueFrom]
  | f64 s =>
    cases s <;> simp_all [mapperFrom_part002, mapperTo, Attr.isKnownScalarB,
      Attr.isUnknown, Attr.isNull, AttrState.isUnknownB, AttrState.isNullB,
      AttrState.zeroOr, restGet_restSet_self, hk, Attr.kind, tfsdkValueFrom]
  | bool s =>
    cases s <;> simp_all [mapperFrom_part002, mapperTo, Attr.isKnownScalarB,
      Attr.isUnknown, Attr.isNull, AttrState.isUnknownB, AttrState.isNullB,
      AttrState.zeroOr, restGet_restSet_self, hk, Attr.kind, tfsdkValueFrom]
  | other u n => simp [Attr.isKnownScalarB] at hs

/-- Witness for C5 at the concrete value `types.StringValue("p")`. -/
theorem C5_witness :
    mapperTo (mapperFrom_part002 [] [] (.str (.value "p")) "name").1
      (mapperFrom_part002 [] [] (.str (.value "p")) "name").2 "name" (.str .null) =
      (.str (.value "p"), []) :=
  C5_mapper_roundtrip (.str (.value "p")) (.str .null) "name" [] [] rfl rfl

/-- C9: for a key absent from the REST data map, `mapper.to` and
`mapper.listTo` (identical in helpers.go and `part_002`) leave the target
attribute value and the diagnostics unchanged. -/
theorem C9_mapper_to_absent_key_frame (m : RestMap) (k : String) (t : Attr)
    (lt : ListAttr) (fn : GoValue → Attr × Diagnostics) (d : Diagnostics)
    (h : restGet m k = none) :
    mapperTo m d k t = (t, d) ∧ mapperListTo m d k lt fn = (lt, d) := by
  simp [mapperTo, mapperListTo, h]

/-- Witness for C9 at a concrete map missing the key "name". -/
theorem C9_witness :
    mapperTo [("id", .str "x")] [] "name" (.str .null) = (.str .null, []) ∧
    mapperListTo [("id", .str "x")] [] "name" .null (fun _ => (.str .null, [])) =
      (.null, []) :=
  C9_mapper_to_absent_key_frame [("id", .str "x")] "name" (.str .null) .null
    (fun _ => (.str .null, [])) [] rfl

/-- C10 counterexample: the two copies of `mapper.from` are not equivalent.
On the known null string (`types.StringNull()`), the helpers.go copy stores
the zero value `""` under the key while the `part_002` copy leaves the map
unchanged. -/
theorem C10_counterexample :
    ¬ (mapperFrom_helpers [] [] (.str .null) "id" =
        mapperFrom_part002 [] [] (.str .null) "id") := by
  intro h
  simp [mapperFrom_helpers, mapperFrom_part002, Attr.isUnknown, Attr.isNull,
    AttrState.isUnknownB, AttrState.isNullB, AttrState.zeroOr, restSet] at h

/-- C10 amended: the two copies of the mapper's outbound methods agree on
every source that is unknown or non-null (they differ on known nulls, where
helpers.go stores the zero scalar), and the two `listFrom` copies agree on
every list that is unknown or has at least one element (they differ on the
null and the empty list, where helpers.go stores the nil slice and
`part_002` an empty one). -/
theorem C10_mapper_copies_amended (a : Attr) (k : String) (m : RestMap)
    (d : Diagnostics) (l : ListAttr) (fn : Attr → GoValue × Diagnostics) :
    (a.isNull = false ∨ a.isUnknown = true →
      mapperFrom_helpers m d a k = mapperFrom_part002 m d a k) ∧
    (l.isUnknownB = true ∨ listElements l ≠ [] →
      mapperListFrom_helpers m d l k fn = mapperListFrom_part002 m d l k fn) := by
  constructor
  · rintro (h | h)
    · simp [mapperFrom_helpers, mapperFrom_part002, h]
    · simp [mapperFrom_helpers, mapperFrom_part002, h]
  · rintro (h | h)
    · simp [mapperListFrom_helpers, mapperListFrom_part002, h]
    · simp only [mapperListFrom_helpers, mapperListFrom_part002]
      by_cases hu : l.isUnknownB = true
      · simp [hu]
      · simp only [hu, if_neg, Bool.not_eq_true] at *
        have hfst := listFromStep_foldl_fst fn (listElements l) [] d
        have hne : ((listElements l).foldl (listFromStep fn) ([], d)).1 ≠ [] := by
          rw [hfst]
          simpa using h
        simp [hu, List.isEmpty_iff, hne]

/-- Witness for the C10 amended claim at a known non-null string and a
one-element list. -/
theorem C10_witness :
    mapperFrom_helpers [] [] (.str (.value "x")) "code" =
      mapperFrom_part002 [] [] (.str (.value "x")) "code" ∧
    mapperListFrom_helpers [] [] (.value [.str (.value "x")]) "code"
        (fun _ => (.str "t", [])) =
      mapperListFrom_part002 [] [] (.value [.str (.value "x")]) "code"
        (fun _ => (.str "t", [])) := by
  have h := C10_mapper_copies_amended (.str (.value "x")) "code" [] []
    (.value [.str (.value "x")]) (fun _ => (.str "t", []))
  exact ⟨h.1 (Or.inl rfl), h.2 (Or.inr (by simp [listElements]))⟩

/-! ### The HTTP client wrapper (`client.go`) -/

/-- Upper-case hex digit, as used by Go's `net/url` escaping. -/
def hexDigit (n : Nat) : Char :=
  if n < 10 then Char.ofNat (48 + n) else Char.ofNat (55 + n)

/-- Characters `net/url` never escapes in either mode. -/
def isUnreservedChar (c : Char) : Bool :=
  c.isAlphanum || c = '-' || c = '.' || c = '_' || c = '~'

/-- Modelled external collaborator: `url.PathEscape`.  Exact for ASCII ids
(the only inputs the repository builds paths from): unreserved characters
are kept, everything else is percent-encoded. -/
def pathEscape (s : String) : String :=
  String.mk ((s.data.map fun c =>
    if isUnreservedChar c then [c]
    else ['%', hexDigit (c.toNat / 16 % 16), hexDigit (c.toNat % 16)]).flatten)

/-- `url.Values` under its `Set` operation: an association list. -/
abbrev UrlValues := List (String × String)

/-- `url.Values.Set`: replaces the existing entry or appends. -/
def uvSet (uv : UrlValues) (k v : String) : UrlValues :=
  match uv with
  | [] => [(k, v)]
  | (k', v') :: rest => if k' = k then (k, v) :: rest else (k', v') :: uvSet rest k v

def uvGet (uv : UrlValues) (k : String) : Option String :=
  match uv with
  | [] => none
  | (k', v) :: rest => if k' = k then some v else uvGet rest k

/-- Insertion into a key-sorted list, for `url.Values.Encode`'s key sort. -/
def insertSortedKV (p : String × String) : UrlValues → UrlValues
  | [] => [p]
  | q :: rest => if p.1 ≤ q.1 then p :: q :: rest else q :: insertSortedKV p rest

/-- Modelled external collaborator: `url.Values.Encode` — entries sorted by
key, each `k=v` percent-escaped and joined with `&`. -/
def encodeQuery (uv : UrlValues) : String :=
  String.intercalate "&"
    ((uv.foldr insertSortedKV []).map fun p => pathEscape p.1 ++ "=" ++ pathEscape p.2)

/-- The Go errors `m3terClient.execute` can return: the limiter wait error,
a request construction error, a transport error from `client.Do`, the
`statusCodeError` classifying a non-2xx response, or a JSON decode
error. -/
inductive GoErr where
  | limiter : String → GoErr
  | newRequest : String → GoErr
  | doErr : String → GoErr
  | statusCode : Int → String → GoErr
  | decode : String → GoErr
deriving DecidableEq, Repr

/-- `statusCodeError.Error` (client.go lines 75-80), and the message of the
other error kinds. -/
def GoErr.errorMsg : GoErr → String
  | .limiter m => m
  | .newRequest m => m
  | .doErr m => m
  | .statusCode c b =>
    if b = "" then "unexpected status code " ++ toString c
    else "unexpected status code " ++ toString c ++ ": " ++ b
  | .decode m => m

/-- An externally visible event of the embedded effectful code. -/
inductive Event where
  | getPlan : Event
  | getState : Event
  | getConfig : Event
  | writeCb : Event
  | readCb : Event
  | http : String → String → Option UrlValues → Option RestMap → Event
  | setState : Event
  | limiterWait : Event
  | send : String → String → Event

/-- The HTTP response seen by `execute` after `client.Do`: status code, the
bytes of the body, and whether reading the body stream succeeds
(`io.ReadAll`). -/
structure HttpResponse where
  statusCode : Int
  body : String
  bodyReadOk : Bool
deriving DecidableEq, Repr

/-- The environment one call to `execute` runs against: the outcome of the
limiter wait, of `http.NewRequestWithContext`, of `client.Do`, and of the
JSON decode of a 2xx body.  (`json.Marshal` of the repository's payload
maps of scalars and slices cannot fail and is not a branch point.) -/
structure HttpOracle where
  limiterErr : Option String
  newRequestErr : Option String
  doResult : Except String HttpResponse
  decodeOk : Bool

/-- What one call to `execute` did: its event trace, its returned error
(`none` = nil), whether `responseBody` was filled by a successful decode,
and the URL it built. -/
structure ExecResult where
  trace : List Event
  result : Option GoErr
  decoded : Bool
  fullURL : String

/-- `m3terClient.execute` (client.go lines 24-68): wait on the limiter,
build the URL (path-escaped organization id, optional encoded query),
build the request, send it once, classify a non-2xx status into a
`statusCodeError` (body included when the body stream is readable), and
decode a 2xx body into `responseBody` when one was requested. -/
def executeModel (oracle : HttpOracle) (organizationID method path : String)
    (query : Option UrlValues) (hasResponseBody : Bool) : ExecResult :=
  match oracle.limiterErr with
  | some e => ⟨[.limiterWait], some (.limiter e), false, ""⟩
  | none =>
    let fullURL := "https://api.m3ter.com/organizations/" ++ pathEscape organizationID
      ++ path ++ (match query with | some q => "?" ++ encodeQuery q | none => "")
    match oracle.newRequestErr with
    | some e => ⟨[.limiterWait], some (.newRequest e), false, fullURL⟩
    | none =>
      match oracle.doResult with
      | .error e => ⟨[.limiterWait, .send method fullURL], some (.doErr e), false, fullURL⟩
      | .ok resp =>
        if resp.statusCode < 200 ∨ 300 ≤ resp.statusCode then
          if resp.bodyReadOk then
            ⟨[.limiterWait, .send method fullURL],
              some (.statusCode resp.statusCode resp.body), false, fullURL⟩
          else
            ⟨[.limiterWait, .send method fullURL],
              some (.statusCode resp.statusCode ""), false, fullURL⟩
        else if hasResponseBody then
          if oracle.decodeOk then
            ⟨[.limiterWait, .send method fullURL], none, true, fullURL⟩
          else
            ⟨[.limiterWait, .send method fullURL], some (.decode "json decode error"),
              false, fullURL⟩
        else ⟨[.limiterWait, .send method fullURL], none, false, fullURL⟩

/-- provider.go line 163: `rate.NewLimiter(rate.Limit(10), 1)` — the
client's token bucket refills at 10 tokens per second. -/
def m3terClientLimiterRate : Nat := 10

/-- provider.go line 163: the token bucket's burst size. -/
def m3terClientLimiterBurst : Nat := 1

/-- C2: for every HTTP response received, `execute` returns a
`statusCodeError` exactly when the status code lies outside [200, 300); the
error carries the response's status code and body (the body whenever the
body stream is readable); for an in-range status no `statusCodeError` is
returned and the body is decoded into `responseBody` when one was
requested. -/
theorem C2_execute_status_classification (oracle : HttpOracle)
    (orgID method path : String) (query : Option UrlValues) (hasResponseBody : Bool)
    (resp : HttpResponse) (hl : oracle.limiterErr = none)
    (hn : oracle.newRequestErr = none) (hd : oracle.doResult = .ok resp) :
    ((∃ c b, (executeModel oracle orgID method path query hasResponseBody).result =
        some (.statusCode c b)) ↔
      (resp.statusCode < 200 ∨ 300 ≤ resp.statusCode)) ∧
    (resp.statusCode < 200 ∨ 300 ≤ resp.statusCode → resp.bodyReadOk = true →
      (executeModel oracle orgID method path query hasResponseBody).result =
        some (.statusCode resp.statusCode resp.body)) ∧
    (200 ≤ resp.statusCode ∧ resp.statusCode < 300 →
      (hasResponseBody = true → oracle.decodeOk = true →
        (executeModel oracle orgID method path query hasResponseBody).result = none ∧
        (executeModel oracle orgID method path query hasResponseBody).decoded = true) ∧
      (hasResponseBody = false →
        (executeModel oracle orgID method path query hasResponseBody).result = none)) := by
  rcases oracle with ⟨le, nr, dr, dk⟩
  simp only at hl hn hd
  subst hl hn hd
  by_cases hrange : resp.statusCode < 200 ∨ 300 ≤ resp.statusCode
  · cases hb : resp.bodyReadOk <;>
      simp only [executeModel, hrange, hb, if_true, if_false, ite_true, ite_false,
        reduceIte] <;>
      refine ⟨by simp [hrange], by simp, fun h1 => ?_⟩ <;>
      (exfalso; rcases hrange with h | h <;> omega)
  · have hr : ¬ (resp.statusCode < 200 ∨ 300 ≤ resp.statusCode) := hrange
    cases hrb : hasResponseBody <;> cases hdk : dk <;>
      simp [executeModel, hr, hrb]
/-- Witness for C2 at a concrete 404 response with body "nope". -/
theorem C2_witness :
    (executeModel ⟨none, none, .ok ⟨404, "nope", true⟩, true⟩ "org" "GET" "/products"
      none true).result = some (.statusCode 404 "nope") :=
  (C2_execute_status_classification ⟨none, none, .ok ⟨404, "nope", true⟩, true⟩
    "org" "GET" "/products" none true ⟨404, "nope", true⟩ rfl rfl rfl).2.1
    (Or.inr (by norm_num)) rfl

/-- C3: every call to `execute` waits on the client's token-bucket limiter
(configured at 10 requests per second, burst 1) before anything else; a
limiter wait error is returned as-is and no request is ever sent; and at
most one request is sent — there is no retry. -/
theorem C3_execute_limiter_first (oracle : HttpOracle)
    (orgID method path : String) (query : Option UrlValues) (hasResponseBody : Bool) :
    ((executeModel oracle orgID method path query hasResponseBody).trace.head? =
      some .limiterWait) ∧
    (∀ e, oracle.limiterErr = some e →
      (executeModel oracle orgID method path query hasResponseBody).result =
        some (.limiter e) ∧
      (executeModel oracle orgID method path query hasResponseBody).trace =
        [.limiterWait]) ∧
    ((executeModel oracle orgID method path query hasResponseBody).trace =
        [.limiterWait] ∨
      ∃ u, (executeModel oracle orgID method path query hasResponseBody).trace =
        [.limiterWait, .send method u]) ∧
    m3terClientLimiterRate = 10 ∧ m3terClientLimiterBurst = 1 := by
  rcases oracle with ⟨le, nr, dr, dk⟩
  cases le <;> cases nr <;> rcases dr with e | resp <;>
    simp [executeModel, m3terClientLimiterRate, m3terClientLimiterBurst] <;>
    split_ifs <;> simp

/-- Witness for C3: a failed limiter wait returns the wait error and sends
nothing. -/
theorem C3_witness :
    (executeModel ⟨some "context canceled", none, .ok ⟨200, "", true⟩, true⟩ "org"
      "GET" "/products" none true).result = some (.limiter "context canceled") ∧
    (executeModel ⟨some "context canceled", none, .ok ⟨200, "", true⟩, true⟩ "org"
      "GET" "/products" none true).trace = [.limiterWait] :=
  (C3_execute_limiter_first ⟨some "context canceled", none, .ok ⟨200, "", true⟩, true⟩
    "org" "GET" "/products" none true).2.1 "context canceled" rfl

/-! ### The generic CRUD orchestration functions (`part_002` lines 211-311) -/

theorem hasErrorDiag_append (d d2 : Diagnostics) :
    hasErrorDiag (d ++ d2) = (hasErrorDiag d || hasErrorDiag d2) := by
  simp [hasErrorDiag, List.any_append]

theorem hasErrorDiag_addError (d : Diagnostics) (s t : String) :
    hasErrorDiag (addErrorDiag d s t) = true := by
  simp [hasErrorDiag, addErrorDiag]

theorem hasErrorDiag_cons (x : Diagnostic) (l : Diagnostics) :
    hasErrorDiag (x :: l) = (x.isErr || hasErrorDiag l) := by
  simp [hasErrorDiag]

/-- The outcome of one generic CRUD call: its event trace, the response
diagnostics, and the model written to Terraform state by `resp.State.Set`
(`none` when the state write was never reached). -/
structure CrudResult (T : Type) where
  trace : List Event
  diags : Diagnostics
  finalState : Option T

/-- `genericCreate` (`part_002` lines 211-239).  The plan read, the
mapping callbacks and the client call are environment parameters:
`planDiags` are the diagnostics of `req.Plan.Get`, `write`/`read` return
the diagnostics they append, `execResult` is what `client.execute` returns
for the POST (on a non-nil error the Go output map stays nil, so `read`
runs against the empty map). -/
def genericCreateModel {T : Type} (planData : T) (planDiags : Diagnostics)
    (write : T → RestMap → RestMap × Diagnostics)
    (read : T → RestMap → T × Diagnostics)
    (execResult : Except GoErr RestMap) (path name : String) : CrudResult T :=
  let d := planDiags
  if hasErrorDiag d then ⟨[.getPlan], d, none⟩
  else
    let w := write planData []
    let d := d ++ w.2
    if hasErrorDiag d then ⟨[.getPlan, .writeCb], d, none⟩
    else
      match execResult with
      | .error e =>
        let d := addErrorDiag d "Client Error"
          ("Unable to create " ++ name ++ ", got error: " ++ e.errorMsg)
        let r := read planData []
        let d := d ++ r.2
        if hasErrorDiag d then
          ⟨[.getPlan, .writeCb, .http "POST" path none (some w.1), .readCb], d, none⟩
        else
          ⟨[.getPlan, .writeCb, .http "POST" path none (some w.1), .readCb, .setState],
            d, some r.1⟩
      | .ok updated =>
        let r := read planData updated
        let d := d ++ r.2
        if hasErrorDiag d then
          ⟨[.getPlan, .writeCb, .http "POST" path none (some w.1), .readCb], d, none⟩
        else
          ⟨[.getPlan, .writeCb, .http "POST" path none (some w.1), .readCb, .setState],
            d, some r.1⟩

/-- `genericRead` (`part_002` lines 241-262).  `getId` is the model's
`GetId()` accessor; note the Go code appends `resp.State.Set` with no
`HasError` check after the `read` callback. -/
def genericReadModel {T : Type} (stateData : T) (stateDiags : Diagnostics)
    (getId : T → AttrState String) (read : T → RestMap → T × Diagnostics)
    (execResult : Except GoErr RestMap) (path name : String) : CrudResult T :=
  let d := stateDiags
  if hasErrorDiag d then ⟨[.getState], d, none⟩
  else
    let idPath := path ++ "/" ++ pathEscape ((getId stateData).zeroOr "")
    match execResult with
    | .error e =>
      ⟨[.getState, .http "GET" idPath none none],
        addErrorDiag d "Client Error"
          ("Unable to read " ++ name ++ ", got error: " ++ e.errorMsg), none⟩
    | .ok restData =>
      let r := read stateData restData
      ⟨[.getState, .http "GET" idPath none none, .readCb, .setState],
        d ++ r.2, some r.1⟩

/-- `genericUpdate` (`part_002` lines 264-298): GET the current object,
merge the plan into it with `write`, PUT the merged body, map the PUT
response back with `read`. -/
def genericUpdateModel {T : Type} (planData : T) (planDiags : Diagnostics)
    (getId : T → AttrState String)
    (write : T → RestMap → RestMap × Diagnostics)
    (read : T → RestMap → T × Diagnostics)
    (execGet execPut : Except GoErr RestMap) (path name : String) : CrudResult T :=
  let d := planDiags
  if hasErrorDiag d then ⟨[.getPlan], d, none⟩
  else
    let idPath := path ++ "/" ++ pathEscape ((getId planData).zeroOr "")
    match execGet with
    | .error e =>
      ⟨[.getPlan, .http "GET" idPath none none],
        addErrorDiag d "Client Error"
          ("Unable to read " ++ name ++ ", got error: " ++ e.errorMsg), none⟩
    | .ok restData =>
      let w := write planData restData
      let d := d ++ w.2
      if hasErrorDiag d then
        ⟨[.getPlan, .http "GET" idPath none none, .writeCb], d, none⟩
      else
        match execPut with
        | .error e =>
          let d := addErrorDiag d "Client Error"
            ("Unable to update " ++ name ++ ", got error: " ++ e.errorMsg)
          let r := read planData []
          let d := d ++ r.2
          if hasErrorDiag d then
            ⟨[.getPlan, .http "GET" idPath none none, .writeCb,
              .http "PUT" idPath none (some w.1), .readCb], d, none⟩
          else
            ⟨[.getPlan, .http "GET" idPath none none, .writeCb,
              .http "PUT" idPath none (some w.1), .readCb, .setState], d, some r.1⟩
        | .ok newRest =>
          let r := read planData newRest
          let d := d ++ r.2
          if hasErrorDiag d then
            ⟨[.getPlan, .http "GET" idPath none none, .writeCb,
              .http "PUT" idPath none (some w.1), .readCb], d, none⟩
          else
            ⟨[.getPlan, .http "GET" idPath none none, .writeCb,
              .http "PUT" idPath none (some w.1), .readCb, .setState], d, some r.1⟩

/-- `genericDelete` (`part_002` lines 300-311): DELETE and never touch the
state.  The DELETE passes no response target, so the client result is just
an optional error. -/
def genericDeleteModel {T : Type} (stateData : T) (stateDiags : Diagnostics)
    (getId : T → AttrState String) (execErr : Option GoErr)
    (path name : String) : CrudResult T :=
  let d := stateDiags
  if hasErrorDiag d then ⟨[.getState], d, none⟩
  else
    let idPath := path ++ "/" ++ pathEscape ((getId stateData).zeroOr "")
    match execErr with
    | some e =>
      ⟨[.getState, .http "DELETE" idPath none none],
        addErrorDiag d "Client Error"
          ("Unable to delete " ++ name ++ ", got error: " ++ e.errorMsg), none⟩
    | none => ⟨[.getState, .http "DELETE" idPath none none], d, none⟩

/-- The canonical full event sequence of `genericCreate`. -/
def createSeq (path : String) (body : RestMap) : List Event :=
  [.getPlan, .writeCb, .http "POST" path none (some body), .readCb, .setState]

/-- The canonical full event sequence of `genericRead`. -/
def readSeq (path id : String) : List Event :=
  [.getState, .http "GET" (path ++ "/" ++ pathEscape id) none none, .readCb, .setState]

/-- The canonical full event sequence of `genericUpdate`. -/
def updateSeq (path id : String) (body : RestMap) : List Event :=
  [.getPlan, .http "GET" (path ++ "/" ++ pathEscape id) none none, .writeCb,
    .http "PUT" (path ++ "/" ++ pathEscape id) none (some body), .readCb, .setState]

/-- The canonical full event sequence of `genericDelete`. -/
def deleteSeq (path id : String) : List Event :=
  [.getState, .http "DELETE" (path ++ "/" ++ pathEscape id) none none]

/-- C1 counterexample: the claim "the state write happens only after the
read/write mapping callbacks have run without adding an error diagnostic"
is false for `genericRead`: with a loaded prior state and a successful GET,
a read callback that adds an error diagnostic still reaches
`resp.State.Set` (there is no `HasError` check between the callback and the
state write, `part_002` lines 258-261). -/
theorem C1_counterexample :
    (genericReadModel () [] (fun _ => .value "i")
        (fun _ _ => ((), [⟨true, "boom", "bad field"⟩])) (.ok []) "/products"
        "product").finalState = some () ∧
    .setState ∈ (genericReadModel () [] (fun _ => .value "i")
        (fun _ _ => ((), [⟨true, "boom", "bad field"⟩])) (.ok []) "/products"
        "product").trace ∧
    hasErrorDiag (genericReadModel () [] (fun _ => .value "i")
        (fun _ _ => ((), [⟨true, "boom", "bad field"⟩])) (.ok []) "/products"
        "product").diags = true := by
  refine ⟨rfl, ?_, rfl⟩
  simp [genericReadModel, hasErrorDiag]

/-- C1 amended: each generic CRUD function performs a prefix of its
canonical sequence "read plan/state, issue the HTTP verb (create: POST to
the collection path; read: GET path/id; update: GET path/id then PUT the
merged body to path/id; delete: DELETE path/id), map the response, write
state", the full sequence runs exactly when nothing failed, and the state
write happens only with error-free diagnostics for `genericCreate` and
`genericUpdate` — while `genericRead` writes state whenever the prior
state loaded and the GET succeeded, even if the read callback added an
error diagnostic; `genericDelete` never writes state. -/
theorem C1_crud_sequences_amended {T : Type} (planData stateData : T)
    (pd sd : Diagnostics) (getId : T → AttrState String)
    (write : T → RestMap → RestMap × Diagnostics)
    (read : T → RestMap → T × Diagnostics)
    (er erd eg ep : Except GoErr RestMap) (ed : Option GoErr) (path name : String) :
    ((∃ k, (genericCreateModel planData pd write read er path name).trace =
        (createSeq path (write planData []).1).take k) ∧
     (.setState ∈ (genericCreateModel planData pd write read er path name).trace ↔
        hasErrorDiag (genericCreateModel planData pd write read er path name).diags =
          false) ∧
     (hasErrorDiag (genericCreateModel planData pd write read er path name).diags =
        false →
      (genericCreateModel planData pd write read er path name).trace =
        createSeq path (write planData []).1)) ∧
    ((∃ k, (genericReadModel stateData sd getId read erd path name).trace =
        (readSeq path ((getId stateData).zeroOr "")).take k) ∧
     (.setState ∈ (genericReadModel stateData sd getId read erd path name).trace ↔
        (hasErrorDiag sd = false ∧ ∃ m, erd = .ok m)) ∧
     (hasErrorDiag sd = false → ∀ m, erd = .ok m →
      (genericReadModel stateData sd getId read erd path name).trace =
        readSeq path ((getId stateData).zeroOr ""))) ∧
    ((∃ k, (genericUpdateModel planData pd getId write read eg ep path name).trace =
        (updateSeq path ((getId planData).zeroOr "")
          (write planData (eg.toOption.getD [])).1).take k) ∧
     (.setState ∈ (genericUpdateModel planData pd getId write read eg ep path name).trace ↔
        hasErrorDiag
          (genericUpdateModel planData pd getId write read eg ep path name).diags =
          false) ∧
     (hasErrorDiag (genericUpdateModel planData pd getId write read eg ep path name).diags =
        false →
      (genericUpdateModel planData pd getId write read eg ep path name).trace =
        updateSeq path ((getId planData).zeroOr "")
          (write planData (eg.toOption.getD [])).1)) ∧
    ((∃ k, (genericDeleteModel stateData sd getId ed path name).trace =
        (deleteSeq path ((getId stateData).zeroOr "")).take k) ∧
     .setState ∉ (genericDeleteModel stateData sd getId ed path name).trace ∧
     (hasErrorDiag sd = false →
      (genericDeleteModel stateData sd getId ed path name).trace =
        deleteSeq path ((getId stateData).zeroOr ""))) := by
  refine ⟨?_, ?_, ?_, ?_⟩
  · -- genericCreate
    by_cases h1 : hasErrorDiag pd
    · exact ⟨⟨1, by simp [genericCreateModel, h1, createSeq]⟩,
        by simp [genericCreateModel, h1],
        by simp [genericCreateModel, h1]⟩
    · by_cases h2 : hasErrorDiag (pd ++ (write planData []).2)
      · exact ⟨⟨2, by simp [genericCreateModel, h1, h2, createSeq]⟩,
          by simp [genericCreateModel, h1, h2],
          by simp [genericCreateModel, h1, h2]⟩
      · rcases er with e | m
        · exact ⟨⟨4, by simp [genericCreateModel, h1, h2, hasErrorDiag_append,
              hasErrorDiag_addError, createSeq]⟩,
            by simp [genericCreateModel, h1, h2, hasErrorDiag_append,
              hasErrorDiag_addError],
            by simp [genericCreateModel, h1, h2, hasErrorDiag_append,
              hasErrorDiag_addError]⟩
        · by_cases h3 :
            hasErrorDiag (pd ++ ((write planData []).2 ++ (read planData m).2))
          · exact ⟨⟨4, by simp [genericCreateModel, h1, h2, h3, createSeq]⟩,
              by simp [genericCreateModel, h1, h2, h3],
              by simp [genericCreateModel, h1, h2, h3]⟩
          · exact ⟨⟨5, by simp [genericCreateModel, h1, h2, h3, createSeq]⟩,
              by simp [genericCreateModel, h1, h2, h3],
              by simp [genericCreateModel, h1, h2, h3, createSeq]⟩
  · -- genericRead
    by_cases h1 : hasErrorDiag sd
    · exact ⟨⟨1, by simp [genericReadModel, h1, readSeq]⟩,
        by simp [genericReadModel, h1],
        by simp [h1]⟩
    · rcases erd with e | m
      · exact ⟨⟨2, by simp [genericReadModel, h1, readSeq]⟩,
          by simp [genericReadModel, h1],
          by simp [genericReadModel, h1]⟩
      · exact ⟨⟨4, by simp [genericReadModel, h1, readSeq]⟩,
          by simp [genericReadModel, h1],
          by simp [genericReadModel, h1, readSeq]⟩
  · -- genericUpdate
    by_cases h1 : hasErrorDiag pd
    · exact ⟨⟨1, by simp [genericUpdateModel, h1, updateSeq]⟩,
        by simp [genericUpdateModel, h1],
        by simp [genericUpdateModel, h1]⟩
    · rcases eg with e | mg
      · exact ⟨⟨2, by simp [genericUpdateModel, h1, updateSeq]⟩,
          by simp [genericUpdateModel, h1, hasErrorDiag_addError],
          by simp [genericUpdateModel, h1, hasErrorDiag_addError]⟩
      · by_cases h2 : hasErrorDiag (pd ++ (write planData mg).2)
        · exact ⟨⟨3, by simp [genericUpdateModel, h1, h2, updateSeq]⟩,
            by simp [genericUpdateModel, h1, h2],
            by simp [genericUpdateModel, h1, h2]⟩
        · rcases ep with e | mp
          · exact ⟨⟨5, by simp [genericUpdateModel, h1, h2, hasErrorDiag_append,
                hasErrorDiag_addError, Except.toOption, updateSeq]⟩,
              by simp [genericUpdateModel, h1, h2, hasErrorDiag_append,
                hasErrorDiag_addError],
              by simp [genericUpdateModel, h1, h2, hasErrorDiag_append,
                hasErrorDiag_addError]⟩
          · by_cases h3 :
              hasErrorDiag (pd ++ ((write planData mg).2 ++ (read planData mp).2))
            · exact ⟨⟨5, by simp [genericUpdateModel, h1, h2, h3, Except.toOption,
                  updateSeq]⟩,
                by simp [genericUpdateModel, h1, h2, h3],
                by simp [genericUpdateModel, h1, h2, h3]⟩
            · exact ⟨⟨6, by simp [genericUpdateModel, h1, h2, h3, Except.toOption,
                  updateSeq]⟩,
                by simp [genericUpdateModel, h1, h2, h3],
                by simp [genericUpdateModel, h1, h2, h3, Except.toOption, updateSeq]⟩
  · -- genericDelete
    by_cases h1 : hasErrorDiag sd
    · exact ⟨⟨1, by simp [genericDeleteModel, h1, deleteSeq]⟩,
        by simp [genericDeleteModel, h1],
        by simp [h1]⟩
    · rcases ed with _ | e
      · exact ⟨⟨2, by simp [genericDeleteModel, h1, deleteSeq]⟩,
          by simp [genericDeleteModel, h1],
          by simp [genericDeleteModel, h1, deleteSeq]⟩
      · exact ⟨⟨2, by simp [genericDeleteModel, h1, deleteSeq]⟩,
          by simp [genericDeleteModel, h1],
          by simp [genericDeleteModel, h1, deleteSeq]⟩

/-- Witness for the C1 amended claim: a fully successful create performs
the complete canonical sequence. -/
theorem C1_witness :
    (genericCreateModel () [] (fun _ _ => ([("name", GoValue.str "p")], []))
        (fun _ _ => ((), [])) (.ok []) "/products" "product").trace =
      createSeq "/products" [("name", GoValue.str "p")] := by
  have h := C1_crud_sequences_amended () () [] [] (fun _ => AttrState.value "i")
    (fun _ _ => ([("name", GoValue.str "p")], [])) (fun _ _ => ((), []))
    (.ok []) (.ok []) (.ok []) (.ok []) none "/products" "product"
  exact h.1.2.2 rfl

/-- C8: whenever `client.execute` returns a non-nil error inside one of the
generic CRUD functions, a "Client Error" diagnostic is added and
`resp.State.Set` is never reached, leaving the prior Terraform state
untouched.  The hypotheses say only that the function had got as far as the
failing `execute` call (the plan/state read and preceding `write` callback
had not errored). -/
theorem C8_crud_client_error_atomicity {T : Type} (planData stateData : T)
    (pd sd : Diagnostics) (getId : T → AttrState String)
    (write : T → RestMap → RestMap × Diagnostics)
    (read : T → RestMap → T × Diagnostics) (e : GoErr) (mg : RestMap)
    (path name : String) :
    (hasErrorDiag pd = false → hasErrorDiag (pd ++ (write planData []).2) = false →
      Diagnostic.mk true "Client Error"
          ("Unable to create " ++ name ++ ", got error: " ++ e.errorMsg) ∈
        (genericCreateModel planData pd write read (.error e) path name).diags ∧
      .setState ∉ (genericCreateModel planData pd write read (.error e) path name).trace ∧
      (genericCreateModel planData pd write read (.error e) path name).finalState =
        none) ∧
    (hasErrorDiag sd = false →
      Diagnostic.mk true "Client Error"
          ("Unable to read " ++ name ++ ", got error: " ++ e.errorMsg) ∈
        (genericReadModel stateData sd getId read (.error e) path name).diags ∧
      .setState ∉ (genericReadModel stateData sd getId read (.error e) path name).trace ∧
      (genericReadModel stateData sd getId read (.error e) path name).finalState =
        none) ∧
    (hasErrorDiag pd = false →
      Diagnostic.mk true "Client Error"
          ("Unable to read " ++ name ++ ", got error: " ++ e.errorMsg) ∈
        (genericUpdateModel planData pd getId write read (.error e) (.ok mg)
          path name).diags ∧
      .setState ∉ (genericUpdateModel planData pd getId write read (.error e) (.ok mg)
          path name).trace ∧
      (genericUpdateModel planData pd getId write read (.error e) (.ok mg)
          path name).finalState = none) ∧
    (hasErrorDiag pd = false → hasErrorDiag (pd ++ (write planData mg).2) = false →
      Diagnostic.mk true "Client Error"
          ("Unable to update " ++ name ++ ", got error: " ++ e.errorMsg) ∈
        (genericUpdateModel planData pd getId write read (.ok mg) (.error e)
          path name).diags ∧
      .setState ∉ (genericUpdateModel planData pd getId write read (.ok mg) (.error e)
          path name).trace ∧
      (genericUpdateModel planData pd getId write read (.ok mg) (.error e)
          path name).finalState = none) ∧
    (hasErrorDiag sd = false →
      Diagnostic.mk true "Client Error"
          ("Unable to delete " ++ name ++ ", got error: " ++ e.errorMsg) ∈
        (genericDeleteModel stateData sd getId (some e) path name).diags ∧
      .setState ∉ (genericDeleteModel stateData sd getId (some e) path name).trace ∧
      (genericDeleteModel stateData sd getId (some e) path name).finalState = none) := by
  refine ⟨fun h1 h2 => ?_, fun h1 => ?_, fun h1 => ?_, fun h1 h2 => ?_, fun h1 => ?_⟩
  · simp [genericCreateModel, h1, h2, hasErrorDiag_append, hasErrorDiag_addError,
      hasErrorDiag_cons, addErrorDiag]
  · simp [genericReadModel, h1, addErrorDiag]
  · simp [genericUpdateModel, h1, addErrorDiag]
  · simp [genericUpdateModel, h1, h2, hasErrorDiag_append, hasErrorDiag_addError,
      hasErrorDiag_cons, addErrorDiag]
  · simp [genericDeleteModel, h1, addErrorDiag]

/-- Witness for C8: a failed DELETE records the client error and writes no
state. -/
theorem C8_witness :
    Diagnostic.mk true "Client Error"
        ("Unable to delete product, got error: " ++ (GoErr.doErr "boom").errorMsg) ∈
      (genericDeleteModel () [] (fun _ => .value "i") (some (.doErr "boom"))
        "/products" "product").diags ∧
    (genericDeleteModel () [] (fun _ => .value "i") (some (.doErr "boom"))
        "/products" "product").finalState = none := by
  have h := (C8_crud_client_error_atomicity () () [] [] (fun _ => AttrState.value "i")
    (fun _ _ => ([], [])) (fun _ _ => ((), [])) (.doErr "boom") [] "/products"
    "product").2.2.2.2 rfl
  exact ⟨h.1, h.2.2⟩

/-! ### The product data source (`product_data_source.go`) and the
product-import-by-code fallback (`part_003`) -/

/-- One decoded page of the GET /products list response
(product_data_source.go lines 126-129): the product objects and the
`nextToken` pagination cursor. -/
structure ListPage where
  data : List RestMap
  nextToken : String

/-- The filter of the product data source's list loop
(product_data_source.go lines 136-161): when the name (resp. code)
attribute is known and non-null, the product's "name" (resp. "code") field
must be a string equal to it; a missing or non-string field is not a
match. -/
def productMatches (name code : AttrState String) (restData : RestMap) : Bool :=
  (match name with
   | .value n =>
     match restGet restData "name" with
     | some (.str pn) => pn == n
     | _ => false
   | _ => true) &&
  (match code with
   | .value c =>
     match restGet restData "code" with
     | some (.str pc) => pc == c
     | _ => false
   | _ => true)

/-- Result of the data source's list loop: the requests it made, the client
error that stopped it (if any), and the accumulated matches. -/
structure ListLoopOutcome where
  trace : List Event
  err : Option GoErr
  collected : List RestMap

/-- The paging loop of `ProductDataSource.Read`
(product_data_source.go lines 125-168), with explicit fuel: request
`/products` with the current query values, filter the page into the
accumulator, stop on an empty `nextToken`, otherwise set `nextToken` from
the response and continue.  `none` means the fuel ran out before the loop
exited. -/
def productListLoop (api : UrlValues → Except GoErr ListPage)
    (name code : AttrState String) :
    Nat → UrlValues → List RestMap → List Event → Option ListLoopOutcome
  | 0, _, _, _ => none
  | fuel + 1, qp, acc, tr =>
    match api qp with
    | .error e => some ⟨tr ++ [.http "GET" "/products" (some qp) none], some e, acc⟩
    | .ok page =>
      let acc2 := acc ++ page.data.filter (productMatches name code)
      let tr2 := tr ++ [.http "GET" "/products" (some qp) none]
      if page.nextToken = "" then some ⟨tr2, none, acc2⟩
      else productListLoop api name code fuel (uvSet qp "nextToken" page.nextToken) acc2 tr2

/-- The list endpoint behaves as the finite page chain `pages` from query
`qp` on: each request succeeds, every page but the last carries a non-empty
`nextToken`, and the last page's token is empty. -/
def apiChain (api : UrlValues → Except GoErr ListPage) :
    UrlValues → List ListPage → Prop
  | _, [] => False
  | qp, [p] => api qp = .ok p ∧ p.nextToken = ""
  | qp, p :: q :: rest =>
    api qp = .ok p ∧ p.nextToken ≠ "" ∧
      apiChain api (uvSet qp "nextToken" p.nextToken) (q :: rest)

/-- The successive query values the loop sends along a page chain. -/
def chainQueries : UrlValues → List ListPage → List UrlValues
  | _, [] => []
  | qp, p :: rest => qp :: chainQueries (uvSet qp "nextToken" p.nextToken) rest

/-- Loop correctness: on an api behaving as a terminating page chain, the
loop (with enough fuel) terminates with no error, having requested exactly
the chain's successive query values and collected exactly the union of the
filtered pages. -/
theorem productListLoop_spec (api : UrlValues → Except GoErr ListPage)
    (name code : AttrState String) (pages : List ListPage) :
    ∀ (qp : UrlValues) (acc : List RestMap) (tr : List Event) (fuel : Nat),
      apiChain api qp pages → pages.length ≤ fuel →
      productListLoop api name code fuel qp acc tr =
        some ⟨tr ++ (chainQueries qp pages).map
            (fun q => Event.http "GET" "/products" (some q) none),
          none,
          acc ++ ((pages.map (·.data)).flatten).filter (productMatches name code)⟩ := by
  induction pages with
  | nil => intro qp acc tr fuel h hf; exact h.elim
  | cons p rest ih =>
    intro qp acc tr fuel h hf
    cases fuel with
    | zero => simp at hf
    | succ fuel =>
      cases rest with
      | nil =>
        obtain ⟨hapi, hnt⟩ := h
        simp [productListLoop, hapi, hnt, chainQueries]
      | cons q rest2 =>
        obtain ⟨hapi, hnt, hchain⟩ := h
        have hf2 : (q :: rest2).length ≤ fuel := by
          simp only [List.length_cons] at hf ⊢
          omega
        have := ih (uvSet qp "nextToken" p.nextToken)
          (acc ++ p.data.filter (productMatches name code))
          (tr ++ [Event.http "GET" "/products" (some qp) none]) fuel hchain hf2
        simp [productListLoop, hapi, hnt, chainQueries, this]

/-- The product data source's configuration model
(`ProductDataSourceModel`): `name`, `code`, `id` are `types.String`,
`version` is `types.Int64`, `custom_fields` a dynamic attribute that plays
no part in resolution. -/
structure ProductDSModel where
  name : AttrState String
  code : AttrState String
  customFields : Attr
  id : AttrState String
  version : AttrState Int

/-- Outcome of one `ProductDataSource.Read` call. -/
structure DSReadResult where
  trace : List Event
  diags : Diagnostics
  finalState : Option ProductDSModel

/-- `ProductDataSource.Read` (product_data_source.go lines 97-184).  When
the configured id is known and non-null it GETs `/products/{id}`
(`apiGet`, keyed by the raw id), maps with the read callback and writes
state.  Otherwise it pages through the list endpoint (`apiList`, keyed by
the query values sent) starting from `pageSize=200`, filters with
`productMatches`, errs on zero or several matches, and maps and writes
state on exactly one.  The field-mapping callback `readCb`
(`ProductDataSource.read`) is passed as a parameter, as in the generic CRUD
functions; `fuel` bounds the loop, `none` meaning it was still running. -/
def productDataSourceRead (config : ProductDSModel) (configDiags : Diagnostics)
    (apiGet : String → Except GoErr RestMap)
    (apiList : UrlValues → Except GoErr ListPage)
    (readCb : ProductDSModel → RestMap → ProductDSModel × Diagnostics)
    (fuel : Nat) : Option DSReadResult :=
  let d := configDiags
  if hasErrorDiag d then some ⟨[.getConfig], d, none⟩
  else
    match config.id with
    | .value idv =>
      match apiGet idv with
      | .error e =>
        some ⟨[.getConfig, .http "GET" ("/products/" ++ pathEscape idv) none none],
          addErrorDiag d "Client Error"
            ("Unable to read product, got error: " ++ e.errorMsg), none⟩
      | .ok restData =>
        let r := readCb config restData
        some ⟨[.getConfig, .http "GET" ("/products/" ++ pathEscape idv) none none,
          .readCb, .setState], d ++ r.2, some r.1⟩
    | _ =>
      match productListLoop apiList config.name config.code fuel
        (uvSet [] "pageSize" "200") [] [] with
      | none => none
      | some out =>
        match out.err with
        | some e =>
          some ⟨.getConfig :: out.trace,
            addErrorDiag d "Client Error"
              ("Unable to list products, got error: " ++ e.errorMsg), none⟩
        | none =>
          if out.collected.length = 0 then
            some ⟨.getConfig :: out.trace,
              addErrorDiag d "No matching product found"
                "No product found matching the specified criteria", none⟩
          else if out.collected.length > 1 then
            some ⟨.getConfig :: out.trace,
              addErrorDiag d "Multiple matching products found"
                "Multiple products found matching the specified criteria", none⟩
          else
            let r := readCb config (out.collected.head?.getD [])
            some ⟨.getConfig :: out.trace ++ [.readCb, .setState], d ++ r.2, some r.1⟩

/-- C6: the product data source resolves by id exactly when the configured
id is known and non-null, issuing the single GET `/products/{id}`;
otherwise it filters the pages of the list endpoint with `productMatches`
and, when the listing succeeds, writes state if and only if exactly one
product matched, adding the "No matching product found" (zero matches) or
"Multiple matching products found" (several matches) error diagnostic
otherwise. -/
theorem C6_product_data_source_read (config : ProductDSModel) (cd : Diagnostics)
    (apiGet : String → Except GoErr RestMap)
    (apiList : UrlValues → Except GoErr ListPage)
    (readCb : ProductDSModel → RestMap → ProductDSModel × Diagnostics)
    (pages : List ListPage) (idv : String) (m : RestMap)
    (hcd : hasErrorDiag cd = false) :
    (config.id = .value idv →
      (apiGet idv = .ok m → ∀ fuel,
        productDataSourceRead config cd apiGet apiList readCb fuel =
          some ⟨[.getConfig, .http "GET" ("/products/" ++ pathEscape idv) none none,
            .readCb, .setState], cd ++ (readCb config m).2,
            some (readCb config m).1⟩) ∧
      (∀ e, apiGet idv = .error e → ∀ fuel,
        productDataSourceRead config cd apiGet apiList readCb fuel =
          some ⟨[.getConfig, .http "GET" ("/products/" ++ pathEscape idv) none none],
            addErrorDiag cd "Client Error"
              ("Unable to read product, got error: " ++ e.errorMsg), none⟩)) ∧
    ((∀ s, config.id ≠ .value s) →
      apiChain apiList (uvSet [] "pageSize" "200") pages →
      ∀ fuel, pages.length ≤ fuel →
      ∃ r, productDataSourceRead config cd apiGet apiList readCb fuel = some r ∧
        r.trace = .getConfig :: (chainQueries (uvSet [] "pageSize" "200") pages).map
            (fun q => Event.http "GET" "/products" (some q) none) ++
          (if (((pages.map (·.data)).flatten).filter
              (productMatches config.name config.code)).length = 1 then
            [Event.readCb, Event.setState] else []) ∧
        (r.finalState.isSome = true ↔
          (((pages.map (·.data)).flatten).filter
            (productMatches config.name config.code)).length = 1) ∧
        ((((pages.map (·.data)).flatten).filter
            (productMatches config.name config.code)).length = 0 →
          Diagnostic.mk true "No matching product found"
            "No product found matching the specified criteria" ∈ r.diags) ∧
        ((((pages.map (·.data)).flatten).filter
            (productMatches config.name config.code)).length > 1 →
          Diagnostic.mk true "Multiple matching products found"
            "Multiple products found matching the specified criteria" ∈ r.diags) ∧
        ((((pages.map (·.data)).flatten).filter
            (productMatches config.name config.code)).length = 1 →
          r.finalState = some (readCb config
            ((((pages.map (·.data)).flatten).filter
              (productMatches config.name config.code)).head?.getD [])).1)) := by
  constructor
  · intro hid
    constructor
    · intro hok fuel
      simp [productDataSourceRead, hcd, hid, hok]
    · intro e herr fuel
      simp [productDataSourceRead, hcd, hid, herr]
  · intro hne hchain fuel hfuel
    have hloop := productListLoop_spec apiList config.name config.code pages
      (uvSet [] "pageSize" "200") [] [] fuel hchain hfuel
    simp only [List.nil_append] at hloop
    set ms := ((pages.map (·.data)).flatten).filter
      (productMatches config.name config.code) with hmsdef
    rcases hid : config.id with _ | _ | s
    · by_cases h0 : ms.length = 0
      · refine ⟨_, by simp [productDataSourceRead, hcd, hid, hloop, h0] <;> rfl,
          ?_, ?_, ?_, ?_, ?_⟩ <;> simp [h0, addErrorDiag]
      · by_cases h1 : ms.length = 1
        · refine ⟨_, by simp [productDataSourceRead, hcd, hid, hloop, h0, h1] <;> rfl,
            ?_, ?_, ?_, ?_, ?_⟩ <;> simp [h0, h1]
        · have hgt : 1 < ms.length := by omega
          refine ⟨_, by simp [productDataSourceRead, hcd, hid, hloop, h0, h1, hgt] <;> rfl,
            ?_, ?_, ?_, ?_, ?_⟩ <;> simp [h0, h1, addErrorDiag]
    · by_cases h0 : ms.length = 0
      · refine ⟨_, by simp [productDataSourceRead, hcd, hid, hloop, h0] <;> rfl,
          ?_, ?_, ?_, ?_, ?_⟩ <;> simp [h0, addErrorDiag]
      · by_cases h1 : ms.length = 1
        · refine ⟨_, by simp [productDataSourceRead, hcd, hid, hloop, h0, h1] <;> rfl,
            ?_, ?_, ?_, ?_, ?_⟩ <;> simp [h0, h1]
        · have hgt : 1 < ms.length := by omega
          refine ⟨_, by simp [productDataSourceRead, hcd, hid, hloop, h0, h1, hgt] <;> rfl,
            ?_, ?_, ?_, ?_, ?_⟩ <;> simp [h0, h1, addErrorDiag]
    · exact absurd hid (hne s)

/-- Witness for C6: with a null id, name "p" and a single list page holding
products named "p" and "q", exactly one product matches and state is
written. -/
theorem C6_witness :
    ∃ r, productDataSourceRead
        ⟨.value "p", .null, .other false true, .null, .null⟩ []
        (fun _ => .ok [])
        (fun _ => .ok ⟨[[("name", GoValue.str "p")], [("name", GoValue.str "q")]], ""⟩)
        (fun c _ => (c, [])) 1 = some r ∧
      r.finalState.isSome = true := by
  obtain ⟨r, heq, htr, hiff, h0, h2, h1⟩ :=
    (C6_product_data_source_read
      ⟨.value "p", .null, .other false true, .null, .null⟩ []
      (fun _ => .ok [])
      (fun _ => .ok ⟨[[("name", GoValue.str "p")], [("name", GoValue.str "q")]], ""⟩)
      (fun c _ => (c, []))
      [⟨[[("name", GoValue.str "p")], [("name", GoValue.str "q")]], ""⟩] "" []
      rfl).2
      (fun s h => nomatch h) ⟨rfl, rfl⟩ 1 (Nat.le_refl 1)
  exact ⟨r, heq, hiff.mpr rfl⟩

/-- The decoded product entries of the import fallback's list response
(`part_003` lines 135-142). -/
structure ImportProduct where
  id : String
  code : String
  version : Int
deriving DecidableEq, Repr

/-- One decoded page of that response; its `nextToken` is decoded from the
`next_token` JSON field. -/
structure ImportPage where
  data : List ImportProduct
  nextToken : String
deriving DecidableEq, Repr

/-- Outcome of the import fallback loop: requests made, diagnostics, and
the id written with `resp.State.SetAttribute` when the code matched. -/
structure ImportLoopOutcome where
  trace : List Event
  diags : Diagnostics
  importedId : Option String

/-- The import-by-code fallback loop of `ProductResource.ImportState` in
`part_003` (lines 132-158), entered when the GET by id returns 404: it
builds `urlValues` (pageSize, then nextToken from each response) but its
`execute` call passes `nil` as the query, so those values are never sent —
hence the requests in the trace carry no query and `api` is applied to
`none` every iteration.  `none` as result means the loop was still running
when the fuel ran out. -/
def importListLoop (api : Option UrlValues → Except GoErr ImportPage)
    (reqID : String) : Nat → UrlValues → List Event → Option ImportLoopOutcome
  | 0, _, _ => none
  | fuel + 1, uv, tr =>
    let tr2 := tr ++ [.http "GET" "/products" none none]
    match api none with
    | .error e => some ⟨tr2, addErrorDiag [] "Failed to list products" e.errorMsg, none⟩
    | .ok page =>
      match page.data.find? (fun p => p.code == reqID) with
      | some p => some ⟨tr2, [], some p.id⟩
      | none =>
        if page.nextToken = "" then
          some ⟨tr2, addErrorDiag [] "Product not found"
            ("The product with code " ++ reqID ++ " does not exist."), none⟩
        else importListLoop api reqID fuel (uvSet uv "nextToken" page.nextToken) tr2

/-- The api of the C7 failing input, keyed by the query actually sent: with
no query it serves a first page whose next token is "t1"; when the query
carries nextToken=t1 it serves the terminal page (empty next token) holding
the product with code "x". -/
def c7Api : Option UrlValues → Except GoErr ImportPage
  | none => .ok ⟨[], "t1"⟩
  | some uv =>
    if uvGet uv "nextToken" = some "t1" then .ok ⟨[⟨"ID1", "x", 1⟩], ""⟩
    else .ok ⟨[], "t1"⟩

/-- C7, evaluated at the failing input: the import fallback never sends the
query parameters it sets, so against `c7Api` — an API that terminates as
soon as the stored nextToken is actually sent (second conjunct) — that
loop never finishes, for any amount of fuel (first conjunct).  By
contrast the data source's list loop, against the same API shape keyed by
the queries it passes, finishes after two requests that do carry
pageSize and the current nextToken, and collects the match (third
conjunct). -/
theorem C7_import_loop_nil_query_bug :
    (∀ fuel uv tr, importListLoop c7Api "x" fuel uv tr = none) ∧
    c7Api (some (uvSet (uvSet [] "pageSize" "200") "nextToken" "t1")) =
      .ok ⟨[⟨"ID1", "x", 1⟩], ""⟩ ∧
    productListLoop
      (fun uv => if uvGet uv "nextToken" = some "t1"
        then .ok ⟨[[("code", GoValue.str "x")]], ""⟩ else .ok ⟨[], "t1"⟩)
      .null .null 2 (uvSet [] "pageSize" "200") [] [] =
      some ⟨[.http "GET" "/products" (some (uvSet [] "pageSize" "200")) none,
        .http "GET" "/products"
          (some (uvSet (uvSet [] "pageSize" "200") "nextToken" "t1")) none],
        none, [[("code", GoValue.str "x")]]⟩ := by
  refine ⟨?_, rfl, rfl⟩
  intro fuel
  induction fuel with
  | zero => intro uv tr; rfl
  | succ f ih =>
    intro uv tr
    simpa [importListLoop, c7Api] using
      ih (uvSet uv "nextToken" "t1") (tr ++ [.http "GET" "/products" none none])
